import Mathlib

/-!
Verification of the mantis-clone-api backend against its specification.

The repository exposes the same session-authenticated CRUD data layer over
several transports.  This file shallowly embeds the relevant handlers:

- `app.js` (SQLite REST variant): register, login, issues, comments, labels,
  pagination of `GET /issues`;
- `auth.js` / `authRoutes.js` (in-memory JWT variant): login error mapping;
- `src/soap-server.js`: `validateSession`, `UpdateIssue`, `CreateComment`,
  `CreateLabel` color normalization, `GetIssues`;
- `src/graphql-server.js`: `validateSession`, `Query.issues` pagination;
- `store.js` / `routes.js` (in-memory variant): `createIssue`,
  `createComment` and the JS object-literal spread semantics they rely on.

Machine strings are Lean `String`s (character manipulation is done on
`List Char`, the character sequence of a JS string); database tables are
lists of rows; the bcrypt hash and compare functions are parameters since
their internals are irrelevant to every claim.
-/

namespace Mantis

/-- An HTTP JSON error response: status code plus the JSON body fields. -/
structure ErrorBody where
  status : Nat
  code : String
  message : String
deriving DecidableEq, Repr

/-- A row of the `users` table of `app.js` (id INTEGER AUTOINCREMENT,
username UNIQUE, password = bcrypt hash, timestamps). -/
structure UserRow where
  id : Nat
  username : String
  password : String
  created_at : String
  updated_at : String
deriving DecidableEq, Repr

/-- The lookup `db.get(SELECT * FROM users WHERE username = ?)`: first matching row. -/
def findUserByUsername (users : List UserRow) (username : String) : Option UserRow :=
  users.find? (fun u => u.username == username)

/-- Result of `POST /login` in `app.js`. -/
inductive LoginResult
  | err (e : ErrorBody)
  | ok (id : Nat) (username : String)
deriving DecidableEq, Repr

/-- The `POST /login` handler of `app.js`.  `compare pw hash` models
`bcrypt.compare(password, user.password)`.  JS falsiness of a string is
emptiness, so `!username || !password` is the emptiness test. -/
def appLogin (compare : String → String → Bool) (users : List UserRow)
    (username password : String) : LoginResult :=
  if username = "" ∨ password = "" then
    .err ⟨400, "INVALID_INPUT", "Username and password are required."⟩
  else
    match findUserByUsername users username with
    | none => .err ⟨401, "INVALID_CREDENTIALS", "Invalid username or password."⟩
    | some user =>
      if compare password user.password then
        .ok user.id user.username
      else
        .err ⟨401, "INVALID_CREDENTIALS", "Invalid username or password."⟩

/-- A user of the in-memory `auth.js` store (keyed by email). -/
structure AuthUser where
  id : String
  email : String
  password : String
  role : String
deriving DecidableEq, Repr

/-- Function `auth.login` of `auth.js`: throws distinct messages for the two
failure cases, returns the user (from which the JWT is built) on success. -/
def authLogin (compare : String → String → Bool)
    (users : List (String × AuthUser)) (email password : String) :
    Except String AuthUser :=
  match users.lookup email with
  | none => .error "User not found"
  | some user =>
    if compare password user.password then .ok user
    else .error "Invalid password"

/-- Response of the `POST /login` route of `authRoutes.js` (after the
express-validator checks have passed): on error both auth failure messages
collapse to one generic 401 body. -/
inductive AuthLoginResult
  | resp (status : Nat) (message : String)
  | token (id email role : String)
deriving DecidableEq, Repr

/-- The `POST /login` handler of `authRoutes.js`, wrapping `auth.login`. -/
def authRoutesLogin (compare : String → String → Bool)
    (users : List (String × AuthUser)) (email password : String) :
    AuthLoginResult :=
  match authLogin compare users email password with
  | .ok user => .token user.id user.email user.role
  | .error msg =>
    if msg = "User not found" ∨ msg = "Invalid password" then
      .resp 401 "Invalid credentials"
    else
      .resp 500 "Server error"

/-- Result of `POST /register` in `app.js`. -/
inductive RegisterResult
  | err (e : ErrorBody)
  | created (user_id : Nat)
deriving DecidableEq, Repr

/-- The `POST /register` handler of `app.js`.  The INSERT fails with the
UNIQUE-constraint error exactly when the username is already present, which
the handler maps to `USER_EXISTS`; `hashFn` models `bcrypt.hash(password, 10)`
and `nextId` the AUTOINCREMENT id assigned to the new row. -/
def appRegister (users : List UserRow) (username password : String)
    (hashFn : String → String) (nextId : Nat) (now : String) :
    RegisterResult × List UserRow :=
  if username = "" ∨ password = "" then
    (.err ⟨400, "INVALID_INPUT", "Username and password are required."⟩, users)
  else if users.any (fun u => u.username == username) then
    (.err ⟨409, "USER_EXISTS", "Username already taken."⟩, users)
  else
    (.created nextId, users ++ [⟨nextId, username, hashFn password, now, now⟩])

/-- The user identity kept in a session (`{ id, username }`). -/
structure SessionUser where
  id : Nat
  username : String
deriving DecidableEq, Repr

/-- A value of the SOAP session map: the user plus the absolute expiry in
milliseconds (`Date.now() + 60 * 60 * 1000` at login). -/
structure SoapSession where
  user : SessionUser
  expires : Nat
deriving DecidableEq, Repr

/-- Function `validateSession` of `src/soap-server.js`:
`sessions.has(sessionId) && sessions.get(sessionId).expires > Date.now()`. -/
def soapValidateSession (sessions : List (String × SoapSession))
    (sessionId : String) (now : Nat) : Bool :=
  match sessions.lookup sessionId with
  | none => false
  | some s => decide (s.expires > now)

/-- Function `validateSession` of `src/graphql-server.js`: a bare
`sessions.get(sessionToken)`.  The GraphQL session map stores only the user
(`sessions.set(sessionToken, user)` in `loginUser`), with no expiry, and the
current time is never consulted. -/
def graphqlValidateSession (sessions : List (String × SessionUser))
    (sessionToken : String) : Option SessionUser :=
  sessions.lookup sessionToken

/-- Modelled from the spec: `validate(token) -> User | null` "returns the
associated user if the token exists and now < expiry; otherwise treated as
absent".  Each registry entry carries the absolute expiry the spec requires
the session registry to store.  Used to state C2 against the GraphQL
variant, whose registry stores no expiry at all. -/
def specValidate (sessions : List (String × SessionUser × Nat))
    (token : String) (now : Nat) : Option SessionUser :=
  match sessions.lookup token with
  | none => none
  | some (u, expiry) => if now < expiry then some u else none

/-- A row of the `issues` table. -/
structure IssueRow where
  id : String
  title : String
  description : String
  status : String
  priority : String
  assignee : String
  creator : String
  created_at : String
  updated_at : String
deriving DecidableEq, Repr

/-- The mutable fields a PATCH / UpdateIssue body may carry; `none` models
an absent key (`req.body.x === undefined`). -/
structure IssuePatch where
  title : Option String := none
  description : Option String := none
  status : Option String := none
  priority : Option String := none
  assignee : Option String := none
deriving DecidableEq, Repr

/-- The empty update body `{}`. -/
def emptyPatch : IssuePatch := {}

/-- Number of mutable fields pushed onto `fields` by the update handlers
(before the unconditional `updated_at` push). -/
def patchFieldCount (p : IssuePatch) : Nat :=
  (if p.title.isSome then 1 else 0)
  + (if p.description.isSome then 1 else 0)
  + (if p.status.isSome then 1 else 0)
  + (if p.priority.isSome then 1 else 0)
  + (if p.assignee.isSome then 1 else 0)

/-- Effect on one row of the generated
`UPDATE issues SET <fields> WHERE id = ?` statement: each supplied field is
overwritten and `updated_at` is always set (it is always in `fields`). -/
def applyIssuePatch (p : IssuePatch) (now : String) (row : IssueRow) : IssueRow :=
  { row with
    title := p.title.getD row.title
    description := p.description.getD row.description
    status := p.status.getD row.status
    priority := p.priority.getD row.priority
    assignee := p.assignee.getD row.assignee
    updated_at := now }

/-- Result of an issue update. -/
inductive UpdateResult
  | err (e : ErrorBody)
  | ok (row : IssueRow)
deriving DecidableEq, Repr

/-- The `PATCH /issues/:issueId` handler of `app.js`.  Mirrors the source
order: the mutable fields are collected, then `updated_at = ?` is pushed
unconditionally, and only then `if (!fields.length)` guards the
`NO_UPDATE_FIELDS` error, so `fields` is never empty at that test.  The
UPDATE statement touches every row matching the id (`this.changes = 0`
maps to `NOT_FOUND`), then the row is read back. -/
def appUpdateIssue (issues : List IssueRow) (issueId : String)
    (patch : IssuePatch) (now : String) : UpdateResult × List IssueRow :=
  let fieldsLen := patchFieldCount patch + 1
  if fieldsLen = 0 then
    (.err ⟨400, "NO_UPDATE_FIELDS", "No fields provided for update."⟩, issues)
  else
    match issues.find? (fun r => r.id == issueId) with
    | none => (.err ⟨404, "NOT_FOUND", "Issue not found"⟩, issues)
    | some _ =>
      let issues' := issues.map
        (fun r => if r.id == issueId then applyIssuePatch patch now r else r)
      match issues'.find? (fun r => r.id == issueId) with
      | some row => (.ok row, issues')
      | none => (.err ⟨500, "DB_ERROR", "read-back failed"⟩, issues')

/-- Result of a SOAP operation: a fault (code and reason text) or a value. -/
inductive SoapResult (α : Type)
  | fault (code message : String)
  | ok (a : α)
deriving DecidableEq, Repr

/-- The `UpdateIssue` operation of `src/soap-server.js`.  Identical field
collection, but the guard is `if (fields.length <= 1)` after the
unconditional `updated_at` push, so an empty body does fault with
`NO_UPDATE_FIELDS` before any statement runs. -/
def soapUpdateIssue (issues : List IssueRow) (issueId : String)
    (patch : IssuePatch) (now : String) : SoapResult IssueRow × List IssueRow :=
  let fieldsLen := patchFieldCount patch + 1
  if fieldsLen ≤ 1 then
    (.fault "NO_UPDATE_FIELDS" "No fields provided for update.", issues)
  else
    match issues.find? (fun r => r.id == issueId) with
    | none => (.fault "NOT_FOUND" "Issue not found", issues)
    | some _ =>
      let issues' := issues.map
        (fun r => if r.id == issueId then applyIssuePatch patch now r else r)
      match issues'.find? (fun r => r.id == issueId) with
      | some row => (.ok row, issues')
      | none => (.fault "DB_ERROR" "read-back failed", issues')

/-- A row of the `comments` table. -/
structure CommentRow where
  id : String
  issue_id : String
  content : String
  author : String
  created_at : String
  updated_at : String
deriving DecidableEq, Repr

/-- Result of a comment creation. -/
inductive CommentResult
  | err (e : ErrorBody)
  | ok (row : CommentRow)
deriving DecidableEq, Repr

/-- The `POST /issues/:issueId/comments` handler of `app.js`: after the
required-field check it first looks the issue up
(`SELECT id FROM issues WHERE id = ?`), answers `NOT_FOUND` ("Cannot add
comment") when absent, and only otherwise inserts and reads back. -/
def appCreateComment (issues : List IssueRow) (comments : List CommentRow)
    (issueId content author newId now : String) :
    CommentResult × List CommentRow :=
  if content = "" ∨ author = "" then
    (.err ⟨400, "INVALID_INPUT", "content and author are required."⟩, comments)
  else
    match issues.find? (fun r => r.id == issueId) with
    | none =>
      (.err ⟨404, "NOT_FOUND", "Cannot add comment: Issue not found"⟩, comments)
    | some _ =>
      let comments' := comments ++ [⟨newId, issueId, content, author, now, now⟩]
      match comments'.find? (fun c => c.id == newId) with
      | some c => (.ok c, comments')
      | none => (.err ⟨500, "DB_ERROR", "read-back failed"⟩, comments')

/-- A JSON-style value held in a JS object field. -/
inductive JVal
  | str (s : String)
  | num (n : Nat)
deriving DecidableEq, Repr

/-- A JS object as its sequence of field bindings: an object literal such as
`{ id, ...issueData, createdAt }` concatenates the bindings in source order,
and a later binding for the same key overrides an earlier one. -/
abbrev JObj := List (String × JVal)

/-- Reading a field of a JS object: the LAST binding for the key wins
(later keys in an object literal / spread override earlier ones). -/
def jget (o : JObj) (k : String) : Option JVal :=
  o.reverse.lookup k

/-- Function `Store.createIssue` of `store.js`:
`{ id, ...issueData, createdAt: new Date(), updatedAt: new Date() }` with
`id = uuidv4()`.  The spread of the request data comes AFTER the generated
`id` binding, so a caller-supplied `id` field overrides it. -/
def storeCreateIssue (genId : String) (now : Nat) (issueData : JObj) : JObj :=
  [("id", .str genId)] ++ issueData ++ [("createdAt", .num now), ("updatedAt", .num now)]

/-- Function `Store.createComment` of `store.js`:
`{ id, ...commentData, createdAt: new Date() }` with `id = uuidv4()`. -/
def storeCreateComment (genId : String) (now : Nat) (commentData : JObj) : JObj :=
  [("id", .str genId)] ++ commentData ++ [("createdAt", .num now)]

/-- The global in-memory `store` of `store.js`, restricted to the maps the
claims touch. -/
structure MemStore where
  issues : List JObj
  comments : List JObj
deriving DecidableEq, Repr

/-- The express-validator `check(field).notEmpty()` test on a body. -/
def bodyFieldNotEmpty (body : JObj) (field : String) : Bool :=
  match jget body field with
  | some (.str s) => !(s == "")
  | _ => false

/-- The `POST /issues/:issueId/comments` handler of `routes.js`: validates
`content` only, then unconditionally
`Store.createComment({...req.body, issueId, userId})` — it never consults
the issues map, so no issue-existence check happens before the insert.
Returns (status, created comment when any) and the new store. -/
def routesCreateComment (st : MemStore) (issueId userId : String)
    (body : JObj) (genId : String) (now : Nat) :
    (Nat × Option JObj) × MemStore :=
  if bodyFieldNotEmpty body "content" then
    let comment := storeCreateComment genId now
      (body ++ [("issueId", .str issueId), ("userId", .str userId)])
    ((201, some comment), { st with comments := st.comments ++ [comment] })
  else
    ((400, none), st)

/-- The express-validator `check(field).isIn(values)` test on a body. -/
def bodyFieldIsIn (body : JObj) (field : String) (values : List String) : Bool :=
  match jget body field with
  | some (.str s) => values.contains s
  | _ => false

/-- The `POST /issues` handler of `routes.js`: validates `title` non-empty
and `priority` in the enumeration, then
`Store.createIssue({...req.body, status: open})` — the handler-supplied
`status` binding comes after the body spread and overrides any
client-supplied status. -/
def routesCreateIssue (st : MemStore) (body : JObj) (genId : String)
    (now : Nat) : (Nat × Option JObj) × MemStore :=
  if bodyFieldNotEmpty body "title"
      && bodyFieldIsIn body "priority" ["low", "medium", "high", "critical"] then
    let issue := storeCreateIssue genId now (body ++ [("status", .str "open")])
    ((201, some issue), { st with issues := st.issues ++ [issue] })
  else
    ((400, none), st)

/-- JS falsiness of a possibly-absent string body field: absent
(`undefined`) and the empty string are falsy. -/
def jsFalsy (v : Option String) : Bool :=
  match v with
  | none => true
  | some s => s == ""

/-- The `POST /issues` handler of `app.js`: destructures exactly
`title, description, status, priority, assignee, creator` from the body
(a body `id` is never read), checks the required ones truthy, then inserts
with `id = uuidv4()` and reads the row back by that generated id. -/
def appCreateIssue (issues : List IssueRow)
    (title description status priority assignee creator : Option String)
    (newId now : String) : UpdateResult × List IssueRow :=
  if jsFalsy title || jsFalsy status || jsFalsy priority || jsFalsy creator then
    (.err ⟨400, "INVALID_INPUT", "Missing required fields for creating an issue."⟩,
     issues)
  else
    let row : IssueRow :=
      ⟨newId, title.getD "", description.getD "", status.getD "",
       priority.getD "", assignee.getD "", creator.getD "", now, now⟩
    let issues' := issues ++ [row]
    match issues'.find? (fun r => r.id == newId) with
    | some r => (.ok r, issues')
    | none => (.err ⟨500, "DB_ERROR", "read-back failed"⟩, issues')

/-- A row of the `labels` table. -/
structure LabelRow where
  id : String
  name : String
  color : String
  description : String
deriving DecidableEq, Repr

/-- Result of a label creation in `app.js`. -/
inductive LabelResult
  | err (e : ErrorBody)
  | ok (row : LabelRow)
deriving DecidableEq, Repr

/-- The `POST /labels` handler of `app.js`: only checks `name` and `color`
truthy, then inserts the color string VERBATIM — no normalization and no
`INVALID_COLOR` path exists in this variant. -/
def appCreateLabel (labels : List LabelRow) (name color : String)
    (description : Option String) (newId : String) :
    LabelResult × List LabelRow :=
  if name = "" ∨ color = "" then
    (.err ⟨400, "INVALID_INPUT", "name and color are required."⟩, labels)
  else
    let labels' := labels ++ [⟨newId, name, color, description.getD ""⟩]
    match labels'.find? (fun l => l.id == newId) with
    | some l => (.ok l, labels')
    | none => (.err ⟨500, "DB_ERROR", "read-back failed"⟩, labels')

/-- The color normalization of `CreateLabel` in `src/soap-server.js`,
over the character sequence of the JS string: prepend a `#` when missing;
when the result has length 4 (`#RGB`) expand by doubling the three
characters after the `#`. -/
def soapNormColor (color : List Char) : List Char :=
  let c1 := if color.head? = some '#' then color else '#' :: color
  if c1.length = 4 then
    match c1 with
    | _ :: a :: b :: c :: _ => ['#', a, a, b, b, c, c]
    | _ => c1
  else c1

/-- The color handling of `CreateLabel` in `src/soap-server.js`: after the
required-field check and normalization, the only validation is
`normalizedColor.startsWith('#') && normalizedColor.length === 7` — the
characters are never checked to be hex digits.  Returns the color stored
on success. -/
def soapCreateLabelColor (name : String) (color : List Char) :
    SoapResult (List Char) :=
  if name = "" ∨ color = [] then
    .fault "INVALID_INPUT" "name and color are required."
  else
    let n := soapNormColor color
    if n.head? = some '#' ∧ n.length = 7 then .ok n
    else .fault "INVALID_COLOR" "Color must be in format #RRGGBB (e.g., #FF0000)."

/-- A hexadecimal digit. -/
def isHexDigitChar (c : Char) : Bool :=
  c.isDigit || ('a' ≤ c && c ≤ 'f') || ('A' ≤ c && c ≤ 'F')

/-- Modelled from the spec (and claim C6): a color the claim says is
accepted — "3-digit or 6-digit hex with or without a leading #".  Every
other string is claimed to be rejected with `INVALID_COLOR`. -/
def claimedHexColor (color : List Char) : Bool :=
  let body := if color.head? = some '#' then color.tail else color
  (body.length = 3 || body.length = 6) && body.all isHexDigitChar

/-- Value `pageNum` of `GET /issues` in `app.js`: `parseInt(page, 10) || 1`.
`none` models an unparsable value (`NaN`, falsy); `0` is falsy too, but any
other integer — negative included — passes through. -/
def restPageNum (page : Option Int) : Int :=
  match page with
  | none => 1
  | some v => if v = 0 then 1 else v

/-- Value `limitNum` of `GET /issues` in `app.js`:
`Math.min(parseInt(per_page, 10), 100)` — clamped above at 100 only, with
no lower bound; `none` models `NaN` (which `Math.min` propagates). -/
def restLimitNum (per_page : Option Int) : Option Int :=
  match per_page with
  | none => none
  | some v => some (min v 100)

/-- The offset of `GET /issues` in `app.js`: `(pageNum - 1) * limitNum`. -/
def restOffset (page per_page : Option Int) : Option Int :=
  (restLimitNum per_page).map (fun l => (restPageNum page - 1) * l)

/-- Value `pageNum` of `Query.issues` in `src/graphql-server.js`:
`Math.max(1, page)`. -/
def gqlPageNum (page : Int) : Int := max 1 page

/-- Value `limitNum` of `Query.issues` in `src/graphql-server.js`:
`Math.min(Math.max(1, per_page), 100)`. -/
def gqlLimitNum (per_page : Int) : Int := min (max 1 per_page) 100

/-- The offset of `Query.issues`: `(pageNum - 1) * limitNum`. -/
def gqlOffset (page per_page : Int) : Int :=
  (gqlPageNum page - 1) * gqlLimitNum per_page

/-- The WHERE clause of `GET /issues`: equality filters on `status` and
`priority`, each added only when the query parameter is truthy. -/
def filterIssues (issues : List IssueRow) (statusF priorityF : Option String) :
    List IssueRow :=
  issues.filter (fun r =>
    (match statusF with
     | none => true
     | some s => if s = "" then true else r.status == s)
    && (match priorityF with
        | none => true
        | some p => if p = "" then true else r.priority == p))

/-- The response of `GET /issues` in `app.js`. -/
structure ListIssuesResp where
  data : List IssueRow
  total : Nat
  page : Int
  per_page : Int
deriving DecidableEq, Repr

/-- The `GET /issues` handler of `app.js` given the already-normalized
`pageNum`/`limitNum`: runs
`SELECT * FROM issues <where> LIMIT limitNum OFFSET (pageNum-1)*limitNum`
(SQLite treats a negative LIMIT as unlimited and a negative OFFSET as 0)
and reports `total: rows.length` — the number of rows in the current page,
not the count of all rows matching the filters. -/
def appListIssues (issues : List IssueRow) (statusF priorityF : Option String)
    (pageNum limitNum : Int) : ListIssuesResp :=
  let offset := (pageNum - 1) * limitNum
  let filtered := filterIssues issues statusF priorityF
  let afterOffset := filtered.drop (max 0 offset).toNat
  let rows := if limitNum < 0 then afterOffset else afterOffset.take limitNum.toNat
  { data := rows, total := rows.length, page := pageNum, per_page := limitNum }

/-! ## Theorems -/

/-- C1: a login attempt with a wrong password yields the identical generic
`INVALID_CREDENTIALS` failure (same status, code and message) whether or not
the username exists in the store, in both the `app.js` handler and the
`authRoutes.js` wrapper around `auth.login`; since the response is a fixed
constant, the two failure cases are indistinguishable to the caller. -/
theorem login_wrong_password_indistinguishable
    (compare : String → String → Bool) (users : List UserRow)
    (ausers : List (String × AuthUser)) (username password email : String)
    (hu : username ≠ "") (hp : password ≠ "")
    (hbad : ∀ u, findUserByUsername users username = some u →
      compare password u.password = false)
    (habad : ∀ u, ausers.lookup email = some u →
      compare password u.password = false) :
    appLogin compare users username password
      = .err ⟨401, "INVALID_CREDENTIALS", "Invalid username or password."⟩
    ∧ authRoutesLogin compare ausers email password
      = .resp 401 "Invalid credentials" := by
  constructor
  · unfold appLogin
    rw [if_neg (by tauto)]
    cases hfind : findUserByUsername users username with
    | none => simp
    | some u => simp [hbad u hfind]
  · unfold authRoutesLogin authLogin
    cases hfind : ausers.lookup email with
    | none => simp
    | some u => simp [habad u hfind]

/-- C1 witness: concrete instantiation with a store containing the username
(`alice`) and a store not containing the email, under a compare that fails. -/
theorem login_wrong_password_indistinguishable_witness :
    appLogin (fun _ _ => false) [⟨1, "alice", "hash", "t0", "t0"⟩] "alice" "pw"
      = .err ⟨401, "INVALID_CREDENTIALS", "Invalid username or password."⟩
    ∧ authRoutesLogin (fun _ _ => false) [] "alice@example.com" "pw"
      = .resp 401 "Invalid credentials" :=
  login_wrong_password_indistinguishable (fun _ _ => false)
    [⟨1, "alice", "hash", "t0", "t0"⟩] [] "alice" "pw" "alice@example.com"
    (by decide) (by decide) (fun _ _ => rfl) (fun _ _ => rfl)

/-- C9: registering a fresh username succeeds, returns the generated id
and appends the new row; a second registration of the same username fails
with `USER_EXISTS` and leaves the users table (in particular the first
row and its hash) unchanged. -/
theorem register_twice_user_exists
    (users : List UserRow) (username password password' : String)
    (hashFn hashFn' : String → String) (nextId nextId' : Nat) (now now' : String)
    (hu : username ≠ "") (hp : password ≠ "") (hp' : password' ≠ "")
    (hfresh : ∀ u ∈ users, u.username ≠ username) :
    appRegister users username password hashFn nextId now
      = (.created nextId, users ++ [⟨nextId, username, hashFn password, now, now⟩])
    ∧ appRegister (users ++ [⟨nextId, username, hashFn password, now, now⟩])
        username password' hashFn' nextId' now'
      = (.err ⟨409, "USER_EXISTS", "Username already taken."⟩,
         users ++ [⟨nextId, username, hashFn password, now, now⟩]) := by
  have hany : users.any (fun u => u.username == username) = false := by
    simp only [List.any_eq_false, beq_iff_eq]
    intro u hmem
    exact hfresh u hmem
  constructor
  · unfold appRegister
    rw [if_neg (by tauto), hany]
    rfl
  · unfold appRegister
    rw [if_neg (by tauto)]
    have : (users ++ [(⟨nextId, username, hashFn password, now, now⟩ : UserRow)]).any
        (fun u => u.username == username) = true := by
      simp [List.any_append]
    rw [this]
    rfl

/-- C9 witness: concrete instantiation on an empty user table. -/
theorem register_twice_user_exists_witness :
    appRegister [] "bob" "pw1" (fun _ => "h1") 1 "t1"
      = (.created 1, [⟨1, "bob", "h1", "t1", "t1"⟩])
    ∧ appRegister [⟨1, "bob", "h1", "t1", "t1"⟩] "bob" "pw2" (fun _ => "h2") 2 "t2"
      = (.err ⟨409, "USER_EXISTS", "Username already taken."⟩,
         [⟨1, "bob", "h1", "t1", "t1"⟩]) := by
  have h := register_twice_user_exists [] "bob" "pw1" "pw2"
    (fun _ => "h1") (fun _ => "h2") 1 2 "t1" "t2"
    (by decide) (by decide) (by decide) (by intro u hmem; cases hmem)
  simpa using h

/-- C2: the SOAP `validateSession` returns true exactly when the token is in
the registry and the current time is strictly before the stored expiry, as
the claim states; but the GraphQL `validateSession` consults no clock and
its registry stores no expiry, so a token whose spec-mandated expiry
(creation + 1h = 3600000 ms) is long past — here probed at now = 7200000 —
is still mapped to the associated user instead of being treated as absent:
the spec-modelled `specValidate` answers `none` while the GraphQL code
answers `some`. -/
theorem validate_session_expiry :
    (∀ (sessions : List (String × SoapSession)) (sessionId : String) (now : Nat),
        soapValidateSession sessions sessionId now = true
          ↔ ∃ s, sessions.lookup sessionId = some s ∧ now < s.expires)
    ∧ specValidate [("tok", (⟨1, "alice"⟩, 3600000))] "tok" 7200000 = none
    ∧ graphqlValidateSession [("tok", ⟨1, "alice"⟩)] "tok"
        = some ⟨1, "alice"⟩ := by
  refine ⟨?_, by decide, by decide⟩
  intro sessions sessionId now
  unfold soapValidateSession
  cases hl : sessions.lookup sessionId with
  | none => simp
  | some s => simp [hl, Nat.lt_iff_add_one_le]

/-- C3: on an existing issue id, an update with an empty body does NOT fail
in the `app.js` REST handler: `updated_at = ?` is pushed before the
`!fields.length` test, so the `NO_UPDATE_FIELDS` branch is unreachable and
the handler runs `UPDATE issues SET updated_at = ?`, answering 200 with the
row whose `updated_at` has been refreshed to `now`.  The SOAP `UpdateIssue`
(guard `fields.length <= 1`) behaves as the claim demands: it faults with
`NO_UPDATE_FIELDS` and leaves the table unchanged. -/
theorem empty_patch_refreshes_updated_at
    (issues : List IssueRow) (issueId now : String) (row : IssueRow)
    (hfind : issues.find? (fun r => r.id == issueId) = some row) :
    (appUpdateIssue issues issueId emptyPatch now).1
      = .ok { row with updated_at := now }
    ∧ soapUpdateIssue issues issueId emptyPatch now
      = (.fault "NO_UPDATE_FIELDS" "No fields provided for update.", issues) := by
  constructor
  · unfold appUpdateIssue
    rw [if_neg (by simp [patchFieldCount, emptyPatch])]
    rw [hfind]
    have hcomp : ((fun r : IssueRow => r.id == issueId) ∘
        (fun r => if r.id == issueId then applyIssuePatch emptyPatch now r else r))
        = fun r : IssueRow => r.id == issueId := by
      funext r
      by_cases h : r.id = issueId
      · simp [h, applyIssuePatch]
      · simp [h]
    dsimp only
    rw [List.find?_map, hcomp, hfind]
    have hid : row.id = issueId := by
      have := List.find?_some hfind
      simpa using this
    simp [hid, applyIssuePatch, emptyPatch]
  · unfold soapUpdateIssue
    rw [if_pos (by simp [patchFieldCount, emptyPatch])]

/-- C3 witness: a one-row table, patched with the empty body. -/
theorem empty_patch_refreshes_updated_at_witness :
    (appUpdateIssue [⟨"i1", "Bug", "", "open", "high", "", "alice", "t0", "t0"⟩]
        "i1" emptyPatch "t9").1
      = .ok ⟨"i1", "Bug", "", "open", "high", "", "alice", "t0", "t9"⟩
    ∧ soapUpdateIssue [⟨"i1", "Bug", "", "open", "high", "", "alice", "t0", "t0"⟩]
        "i1" emptyPatch "t9"
      = (.fault "NO_UPDATE_FIELDS" "No fields provided for update.",
         [⟨"i1", "Bug", "", "open", "high", "", "alice", "t0", "t0"⟩]) :=
  empty_patch_refreshes_updated_at
    [⟨"i1", "Bug", "", "open", "high", "", "alice", "t0", "t0"⟩] "i1" "t9"
    ⟨"i1", "Bug", "", "open", "high", "", "alice", "t0", "t0"⟩ (by decide)

/-- C4 (amended): in the `app.js` SQLite variant, creating a comment whose
issue id matches no existing issue fails with `NOT_FOUND`
("Cannot add comment: Issue not found") and the comments table is returned
unchanged — the existence check runs before the insert. -/
theorem comment_on_missing_issue_not_found
    (issues : List IssueRow) (comments : List CommentRow)
    (issueId content author newId now : String)
    (hc : content ≠ "") (ha : author ≠ "")
    (hmiss : issues.find? (fun r => r.id == issueId) = none) :
    appCreateComment issues comments issueId content author newId now
      = (.err ⟨404, "NOT_FOUND", "Cannot add comment: Issue not found"⟩,
         comments) := by
  unfold appCreateComment
  rw [if_neg (by tauto), hmiss]

/-- C4 witness: no issues exist, so the comment insert is refused. -/
theorem comment_on_missing_issue_not_found_witness :
    appCreateComment [] [] "ghost-issue" "hi" "bob" "c1" "t0"
      = (.err ⟨404, "NOT_FOUND", "Cannot add comment: Issue not found"⟩, []) :=
  comment_on_missing_issue_not_found [] [] "ghost-issue" "hi" "bob" "c1" "t0"
    (by decide) (by decide) (by decide)

/-- C4 counterexample: the `routes.js` in-memory variant performs no
issue-existence check — with an empty issue map (so the referenced issue id
matches no existing issue) the handler still answers 201 and inserts the
comment, so the comments table is NOT left unchanged and no `NOT_FOUND`
is produced, refuting the claim for this cited variant. -/
theorem comment_on_missing_issue_counterexample :
    (routesCreateComment ⟨[], []⟩ "ghost-issue" "u1"
        [("content", .str "hi"), ("author", .str "bob")] "c1" 7).1.1 = 201
    ∧ (routesCreateComment ⟨[], []⟩ "ghost-issue" "u1"
        [("content", .str "hi"), ("author", .str "bob")] "c1" 7).2.comments.length
      = 1 := by
  constructor <;> rfl

/-- C5 (amended): in the `app.js` SQLite variant a successfully created
issue always carries the generated UUID as its id (the handler never reads
a body `id`); but in the in-memory `store.js` variant the request data is
spread AFTER the generated `id` binding, so any `id` field supplied in the
request determines the stored id, overriding the fresh UUID. -/
theorem create_issue_id_generation :
    (∀ (issues : List IssueRow)
        (title description status priority assignee creator : Option String)
        (newId now : String) (row : IssueRow) (issues' : List IssueRow),
        appCreateIssue issues title description status priority assignee creator
            newId now = (.ok row, issues') → row.id = newId)
    ∧ (∀ (genId : String) (now : Nat) (data : JObj) (v : JVal),
        jget data "id" = some v →
        jget (storeCreateIssue genId now data) "id" = some v) := by
  constructor
  · intro issues title description status priority assignee creator newId now row
      issues' h
    unfold appCreateIssue at h
    split at h
    · simp [Prod.ext_iff] at h
    · dsimp only at h
      split at h
      next r hfind =>
        have hr : r = row :=
          (by simpa [Prod.ext_iff, UpdateResult.ok.injEq] using h :
            r = row ∧ _).1
        have := List.find?_some hfind
        rw [hr] at this
        simpa using this
      next => simp [Prod.ext_iff] at h
  · intro genId now data v h
    unfold storeCreateIssue jget at *
    simp only [List.reverse_append, List.reverse_cons, List.reverse_nil,
      List.nil_append, List.cons_append, List.lookup_cons, List.lookup_append]
    simp only [show (("id" == "updatedAt") = false) from rfl,
      show (("id" == "createdAt") = false) from rfl]
    rw [h]
    rfl

/-- C5 witness: applies both halves at a concrete input. -/
theorem create_issue_id_generation_witness :
    ((appCreateIssue [] (some "Bug") none (some "open") (some "high") none
        (some "alice") "uuid-1" "t0").1
      = .ok ⟨"uuid-1", "Bug", "", "open", "high", "", "alice", "t0", "t0"⟩)
    ∧ jget (storeCreateIssue "uuid-1" 0 [("title", .str "Bug"), ("id", .str "evil")])
        "id" = some (.str "evil") := by
  constructor
  · rfl
  · exact create_issue_id_generation.2 "uuid-1" 0
      [("title", .str "Bug"), ("id", .str "evil")] (.str "evil") (by rfl)

/-- C5 counterexample: `Store.createIssue` with a request carrying
`id: "evil"` stores `"evil"` as the entity id, not the generated UUID
`"uuid-1"` — a supplied id overrides the repository-generated one. -/
theorem create_issue_id_override_counterexample :
    jget (storeCreateIssue "uuid-1" 0
        [("title", .str "Bug"), ("id", .str "evil"), ("status", .str "open")])
      "id" = some (.str "evil")
    ∧ JVal.str "evil" ≠ JVal.str "uuid-1" := by
  constructor <;> decide

/-- C10: every issue the `routes.js` `POST /issues` handler creates has
status "open" in the created (and stored) entity, whatever status the
request body carried: the handler spreads the body first and then binds
`status: open`, which overrides it. -/
theorem routes_created_issue_status_open
    (st : MemStore) (body : JObj) (genId : String) (now : Nat) (issue : JObj)
    (h : (routesCreateIssue st body genId now).1.2 = some issue) :
    jget issue "status" = some (.str "open")
    ∧ issue ∈ (routesCreateIssue st body genId now).2.issues := by
  unfold routesCreateIssue at h ⊢
  split at h
  next hval =>
    simp only [Option.some.injEq] at h
    rw [if_pos hval]
    subst h
    constructor
    · unfold storeCreateIssue jget
      simp only [List.reverse_append, List.reverse_cons, List.reverse_nil,
        List.nil_append, List.cons_append, List.lookup_cons, List.lookup_append]
      rfl
    · exact List.mem_append_right _ (List.mem_singleton_self _)
  next => simp at h

/-- C10 witness: a body that explicitly asks for status "closed" still
yields a stored entity whose status is "open". -/
theorem routes_created_issue_status_open_witness :
    jget ((storeCreateIssue "u1" 5
        ([("title", .str "Bug"), ("priority", .str "high"),
          ("status", .str "closed")] ++ [("status", .str "open")]))) "status"
      = some (.str "open")
    ∧ (storeCreateIssue "u1" 5
        ([("title", .str "Bug"), ("priority", .str "high"),
          ("status", .str "closed")] ++ [("status", .str "open")]))
      ∈ (routesCreateIssue ⟨[], []⟩
          [("title", .str "Bug"), ("priority", .str "high"),
           ("status", .str "closed")] "u1" 5).2.issues :=
  routes_created_issue_status_open ⟨[], []⟩
    [("title", .str "Bug"), ("priority", .str "high"), ("status", .str "closed")]
    "u1" 5 _ (by rfl)

/-- C6 (amended): the SOAP `CreateLabel` prepends `#` when missing and
expands a length-3 body by doubling each character ("f00" is stored as
"#ff0000", lowercase preserved), and accepts any already-`#`-prefixed
7-character string and any 6-character `#`-less string — hex digits are
never validated.  The REST `app.js` variant stores the color verbatim with
no normalization and has no `INVALID_COLOR` path at all. -/
theorem label_color_normalization :
    soapCreateLabelColor "n" ['f', '0', '0']
      = .ok ['#', 'f', 'f', '0', '0', '0', '0']
    ∧ (∀ c : List Char, c.head? ≠ some '#' → c.length = 6 →
        soapCreateLabelColor "n" c = .ok ('#' :: c))
    ∧ (∀ c : List Char, c.head? = some '#' → c.length = 7 →
        soapCreateLabelColor "n" c = .ok c)
    ∧ (∀ (labels : List LabelRow) (name color : String)
        (description : Option String) (newId : String),
        name ≠ "" → color ≠ "" →
        (appCreateLabel labels name color description newId).2
          = labels ++ [⟨newId, name, color, description.getD ""⟩]) := by
  refine ⟨by decide, ?_, ?_, ?_⟩
  · intro c hh hl
    have hc : c ≠ [] := by intro e; subst e; simp at hl
    simp [soapCreateLabelColor, soapNormColor, hc, hh, hl]
  · intro c hh hl
    have hc : c ≠ [] := by intro e; subst e; simp at hl
    simp [soapCreateLabelColor, soapNormColor, hc, hh, hl]
  · intro labels name color description newId hn hco
    unfold appCreateLabel
    rw [if_neg (by tauto)]
    dsimp only
    split <;> rfl

/-- C6 witness: a 6-digit color without `#`, a 7-character color with `#`,
and a verbatim REST insert. -/
theorem label_color_normalization_witness :
    soapCreateLabelColor "n" ['a', 'b', 'c', 'd', 'e', 'f']
      = .ok ['#', 'a', 'b', 'c', 'd', 'e', 'f']
    ∧ soapCreateLabelColor "n" ['#', '1', '2', '3', '4', '5', '6']
      = .ok ['#', '1', '2', '3', '4', '5', '6']
    ∧ (appCreateLabel [] "bug" "#ff0000" none "L1").2
      = [⟨"L1", "bug", "#ff0000", ""⟩] :=
  ⟨label_color_normalization.2.1 ['a', 'b', 'c', 'd', 'e', 'f']
      (by decide) (by decide),
   label_color_normalization.2.2.1 ['#', '1', '2', '3', '4', '5', '6']
      (by decide) (by decide),
   label_color_normalization.2.2.2 [] "bug" "#ff0000" none "L1"
      (by decide) (by decide)⟩

/-- C6 counterexample: "zzz" is not a 3- or 6-digit hex color, yet the SOAP
`CreateLabel` accepts it and stores "#zzzzzz" instead of rejecting it with
`INVALID_COLOR` — hex digits are never checked. -/
theorem label_color_counterexample :
    soapCreateLabelColor "broken" ['z', 'z', 'z']
      = .ok ['#', 'z', 'z', 'z', 'z', 'z', 'z']
    ∧ claimedHexColor ['z', 'z', 'z'] = false := by
  constructor <;> decide

/-- C7 (amended): the GraphQL `Query.issues` normalizes exactly as the
claim states (page clamped below at 1, per_page clamped into [1, 100],
offset = (page-1)*per_page); the REST `GET /issues` clamps per_page above
at 100 and maps only a zero or unparsable page to 1 — a negative page and
a zero or negative per_page pass through unnormalized. -/
theorem pagination_clamping :
    (∀ page per_page : Int,
        1 ≤ gqlPageNum page
        ∧ 1 ≤ gqlLimitNum per_page
        ∧ gqlLimitNum per_page ≤ 100
        ∧ (page ≤ 0 → gqlPageNum page = 1)
        ∧ gqlOffset page per_page = (gqlPageNum page - 1) * gqlLimitNum per_page)
    ∧ gqlLimitNum 150 = 100
    ∧ (∀ v : Int, 100 ≤ v → restLimitNum (some v) = some 100)
    ∧ restPageNum (some 0) = 1
    ∧ (∀ page per_page : Option Int,
        restOffset page per_page
          = (restLimitNum per_page).map (fun l => (restPageNum page - 1) * l)) := by
  refine ⟨?_, by decide, ?_, by decide, fun _ _ => rfl⟩
  · intro page per_page
    refine ⟨le_max_left 1 page, le_min (le_max_left 1 per_page) (by omega),
      min_le_right _ _, fun h => ?_, rfl⟩
    unfold gqlPageNum
    omega
  · intro v hv
    unfold restLimitNum
    dsimp only
    rw [min_eq_right hv]

/-- C7 witness: a negative page is clamped to 1 by GraphQL, and per_page
150 is clamped to 100 by REST. -/
theorem pagination_clamping_witness :
    gqlPageNum (-3) = 1 ∧ restLimitNum (some 150) = some 100 :=
  ⟨(pagination_clamping.1 (-3) 20).2.2.2.1 (by decide),
   pagination_clamping.2.2.1 150 (by decide)⟩

/-- C7 counterexample: in the REST `GET /issues` normalization, page -5
stays -5 (the claim says 0 OR NEGATIVE becomes 1 — only 0 does) and
per_page 0 stays 0 (the claim says per_page is at least 1), so the offset
is computed from the unnormalized values. -/
theorem pagination_no_lower_clamp_counterexample :
    restPageNum (some (-5)) = -5
    ∧ restLimitNum (some 0) = some 0
    ∧ restOffset (some (-5)) (some 20) = some (-120) := by
  refine ⟨by decide, by decide, by decide⟩

/-- C8: in the REST list-issues operation the reported `total` always
equals the number of rows of the current page (after LIMIT/OFFSET), and on
a three-issue table with per_page 2 it reports 2 while the true filtered
row count is 3. -/
theorem list_issues_total_is_page_length :
    (∀ (issues : List IssueRow) (statusF priorityF : Option String)
        (pageNum limitNum : Int),
        (appListIssues issues statusF priorityF pageNum limitNum).total
          = (appListIssues issues statusF priorityF pageNum limitNum).data.length)
    ∧ (appListIssues
        [⟨"i1", "A", "", "open", "low", "", "u", "t", "t"⟩,
         ⟨"i2", "B", "", "open", "low", "", "u", "t", "t"⟩,
         ⟨"i3", "C", "", "open", "low", "", "u", "t", "t"⟩]
        none none 1 2).total = 2
    ∧ (filterIssues
        [⟨"i1", "A", "", "open", "low", "", "u", "t", "t"⟩,
         ⟨"i2", "B", "", "open", "low", "", "u", "t", "t"⟩,
         ⟨"i3", "C", "", "open", "low", "", "u", "t", "t"⟩]
        none none).length = 3 := by
  refine ⟨fun _ _ _ _ _ => rfl, by decide, by decide⟩

end Mantis
